import Mathlib

/-!
Shallow embedding of the AutoPlugin repository (suvansh/AutoPlugin),
principally `src/autoplugin/autoplugin.py`: registration of Python
callables as FastAPI routes, manifest emission (`generate`), and
description derivation (`_generate_description` and its cached
langchain session).  Python values appearing in the plugin spec are
embedded as a small JSON-like inductive; `dict.update`, `len`, and
`getattr` are embedded with their Python semantics on that model.
-/

namespace AutoPlugin

/-- JSON-like values appearing in the plugin spec dictionary:
strings, booleans, and flat string-keyed objects. -/
inductive JVal where
  | s (v : String)
  | b (v : Bool)
  | obj (kvs : List (String × JVal))

/-- Python `d[k]` / `k in d` on a dict modelled as an association list
with first-occurrence lookup. -/
def dictGet (d : List (String × JVal)) (k : String) : Option JVal :=
  (d.find? (fun kv => kv.1 = k)).map Prod.snd

/-- Python `d[k] = v`: replace the (unique) binding in place when the
key exists, preserving insertion order, else append the new binding at
the end. -/
def dictSet : List (String × JVal) → String → JVal → List (String × JVal)
  | [], k, v => [(k, v)]
  | kv :: t, k, v => if kv.1 = k then (k, v) :: t else kv :: dictSet t k v

/-- Python `d.update(kvs)`: set every key-value pair of `kvs` in order. -/
def dictUpdate (d kvs : List (String × JVal)) : List (String × JVal) :=
  kvs.foldl (fun acc kv => dictSet acc kv.1 kv.2) d

/-- Python `len` on a plugin-spec value: character count for strings,
key count for dicts, a `TypeError` (`none`) for booleans. -/
def jLen : JVal → Option Nat
  | .s v => some v.length
  | .b _ => none
  | .obj kvs => some kvs.length

/-- The default `plugin_spec` dictionary literal built inside `generate`. -/
def defaultPluginSpec : List (String × JVal) :=
  [ ("name_for_human", .s "Custom Plugin"),
    ("name_for_model", .s "Custom Plugin"),
    ("description_for_human", .s "Unspecified custom plugin. Add behavior here."),
    ("description_for_model", .s "Unspecified custom plugin. Add behavior here."),
    ("schema_version", .s "v1"),
    ("auth", .obj [("type", .s "none")]),
    ("api", .obj [("type", .s "openapi"),
                  ("url", .s "http://localhost:8000/openapi.yaml"),
                  ("is_user_authenticated", .b false)]),
    ("logo_url", .s "http://example.com/logo.png"),
    ("contact_email", .s "support@example.com"),
    ("legal_info_url", .s "http://www.example.com/legal") ]

/-- The assertion message of `_plugin_check_limit` for an offending key. -/
def limitMsg (key : String) (charLimit foundLen : Nat) : String :=
  "Key \"" ++ key ++ "\" in plugin spec is too long. Expected: <=" ++
    toString charLimit ++ ", found: " ++ toString foundLen ++ "."

/-- Embedding of `_plugin_check_limit(plugin_spec, key, char_limit)`:
`assert len(plugin_spec[key]) <= char_limit` with the message above.
A missing key or a value without `len` also raises (as in Python). -/
def plugin_check_limit (spec : List (String × JVal)) (key : String)
    (charLimit : Nat) : Except String Unit :=
  match dictGet spec key with
  | none => .error ("KeyError: " ++ key)
  | some v =>
    match jLen v with
    | none => .error "TypeError: object has no len()"
    | some n =>
      if n ≤ charLimit then .ok () else .error (limitMsg key charLimit n)

/-- The four character-limit checks of `generate`, in source order; the
first failing assertion aborts the rest. -/
def checkLimits (spec : List (String × JVal)) : Except String Unit :=
  match plugin_check_limit spec "name_for_human" 50 with
  | .error e => .error e
  | .ok _ =>
    match plugin_check_limit spec "name_for_model" 50 with
    | .error e => .error e
    | .ok _ =>
      match plugin_check_limit spec "description_for_human" 120 with
      | .error e => .error e
      | .ok _ => plugin_check_limit spec "description_for_model" 8000

/-- Observable file-system outcome of one `generate` call: whether
`openapi.yaml` was written, the contents of `ai-plugin.json` if it was
written, and the raised error if any. -/
structure GenOutcome where
  openapiWritten : Bool
  manifest : Option (List (String × JVal))
  error : Option String

/-- Embedding of `generate(app, out_dir, **kwargs)`.  The OpenAPI
document is a projection of the app routes delegated to FastAPI/yaml
and is written first; then the default spec is merged with `kwargs`
(`plugin_spec.update(kwargs)`), the four limits are checked, and only
then is `ai-plugin.json` written. -/
def generate (kwargs : List (String × JVal)) : GenOutcome :=
  match checkLimits (dictUpdate defaultPluginSpec kwargs) with
  | .ok _ => { openapiWritten := true,
               manifest := some (dictUpdate defaultPluginSpec kwargs), error := none }
  | .error e => { openapiWritten := true, manifest := none, error := some e }

/-- Runtime values flowing through request payloads and callables
(the types exercised by the repository: `str` and `int`). -/
inductive Val where
  | vStr (s : String)
  | vInt (n : Int)
deriving DecidableEq, Repr

/-- Type annotations usable by pydantic in this repository. -/
inductive Ty where
  | tStr
  | tInt
deriving DecidableEq, Repr

/-- One entry of `inspect.signature(func).parameters`: name, annotation
(`none` embeds the `inspect.Parameter.empty` sentinel), default value
(`none` embeds `inspect.Parameter.empty`, i.e. no default). -/
structure Param where
  name : String
  annotation : Option Ty
  default : Option Val
deriving DecidableEq, Repr

/-- One pydantic field definition handed to `create_model`:
`(annotation, default if default != Parameter.empty else ...)`;
a `none` default embeds the Ellipsis marker (required field). -/
structure FieldDef where
  name : String
  annotation : Option Ty
  default : Option Val
deriving DecidableEq, Repr

/-- The `fields` dict built in `get_post_wrapper`: one field per
signature parameter, carrying the raw annotation and either the default
or the required marker. -/
def postFields (sig : List Param) : List FieldDef :=
  sig.map (fun p => { name := p.name, annotation := p.annotation, default := p.default })

/-- Python `getattr(obj, attr, deflt)` over an attribute table: the
attribute value when the object has the attribute, else the default. -/
def getattrOr {A : Type} (attrs : List (String × A)) (attr : String) (deflt : A) : A :=
  match (attrs.find? (fun kv => kv.1 = attr)).map Prod.snd with
  | some v => v
  | none => deflt

/-- Annotation lookup in the GET branch of `register`:
`getattr(inspect.signature(func).parameters[name], "annotation", str)`.
An `inspect.Parameter` object always exposes the attribute `annotation`
(holding `Parameter.empty` when the source has no annotation), so the
table below always contains the key and the `str` default is dead. -/
def getAnnotationOrStr (p : Param) : Option Ty :=
  getattrOr [("annotation", p.annotation)] "annotation" (some Ty.tStr)

/-- Pydantic value validation against an annotation, for payloads whose
values already have the annotated runtime type (coercions between
conforming payloads and annotations are not exercised here). -/
def checkTy : Ty → Val → Bool
  | .tStr, .vStr _ => true
  | .tInt, .vInt _ => true
  | _, _ => false

/-- First-occurrence key lookup in a JSON object payload. -/
def payloadGet (payload : List (String × Val)) (k : String) : Option Val :=
  (payload.find? (fun kv => kv.1 = k)).map Prod.snd

/-- Pydantic population of one model field from the request payload:
the payload value when the key is present (it must validate against the
annotation), else the declared default; a required field missing from
the payload is a validation error (`none`). A field whose annotation is
the `Parameter.empty` sentinel has no validator (`create_model` refuses
such a field), embedded here as a failure as well. -/
def bindField (payload : List (String × Val)) (f : FieldDef) : Option (String × Val) :=
  match payloadGet payload f.name with
  | some v =>
    match f.annotation with
    | some t => if checkTy t v then some (f.name, v) else none
    | none => none
  | none => f.default.map (fun d => (f.name, d))

/-- Pydantic validation of the whole payload against the model built by
`create_model`: every field is populated, or validation fails. Extra
payload keys that match no field are ignored (pydantic default config). -/
def validatePayload (fields : List FieldDef) (payload : List (String × Val)) :
    Option (List (String × Val)) :=
  match fields with
  | [] => some []
  | f :: rest =>
    match bindField payload f, validatePayload rest payload with
    | some kv, some kvs => some (kv :: kvs)
    | _, _ => none

/-- HTTP outcome of a request to a registered route: the JSON body
`{"result": v}` on success, or the framework's client-error
response when payload validation fails. -/
inductive Response where
  | ok (result : Val)
  | clientError
deriving DecidableEq, Repr

/-- Embedding of the `post_wrapper` closure made by `get_post_wrapper`:
FastAPI parses the body into the pydantic model (rejecting invalid
payloads with a client error), then
`result = await wrapper(**payload.dict()); return {"result": result}`. -/
def postEndpoint (sig : List Param) (func : List (String × Val) → Val)
    (payload : List (String × Val)) : Response :=
  match validatePayload (postFields sig) payload with
  | some kwargs => .ok (func kwargs)
  | none => .clientError

/-- One route added to the FastAPI app by `register`. -/
structure Route where
  method : String
  path : String
  description : Option String
deriving DecidableEq, Repr

/-- The route-registration loop of `register`:
`for method in methods: if method == "GET": ... elif method == "POST": ...`
with no branch for any other string. -/
def routesFor (funcName : String) (methods : List String)
    (description : Option String) : List Route :=
  methods.filterMap (fun m =>
    if m = "GET" then some { method := "GET", path := "/" ++ funcName, description }
    else if m = "POST" then some { method := "POST", path := "/" ++ funcName, description }
    else none)

/-- Description resolution at the top of `register`
(src/autoplugin/autoplugin.py): `descr` is the `description` argument,
`genFlag` the `generate_description` argument, `doc` the callable's
`__doc__`, and `gen` the string `_generate_description(func)` would
return. The boolean records whether `_generate_description` was called. -/
def resolveDescription (descr : Option String) (genFlag : Option Bool)
    (doc : Option String) (gen : String) : Option String × Bool :=
  match descr with
  | some d => (some d, false)
  | none =>
    match genFlag with
    | none =>
      match doc with
      | none => (some gen, true)
      | some d => (some d, false)
    | some true => (some gen, true)
    | some false => (doc, false)

/-- Embedding of `register(app, func, methods=..., description=...,
generate_description=...)` at the route level: resolve the description,
default `methods` to `["POST"]`, then run the registration loop,
returning the routes appended to the app's route table. -/
def register (funcName : String) (methods : Option (List String))
    (descr : Option String) (genFlag : Option Bool) (doc : Option String)
    (gen : String) : List Route :=
  routesFor funcName (methods.getD ["POST"]) (resolveDescription descr genFlag doc gen).1

/-- The langchain `LLMChain` object built by `_get_langchain_description`
and stored in the module-global `_func_description_chain`; `id`
distinguishes distinct constructions of the chain. -/
structure Chain where
  id : Nat
deriving DecidableEq, Repr

/-- Process environment seen by `_get_langchain_description`: whether
`import langchain` succeeds, and the behaviour of `chain.run(func_str)`
for a given chain (an opaque external collaborator). -/
structure LCEnv where
  langchainAvailable : Bool
  runChain : Nat → String → String

/-- Process-wide mutable state touched by `_get_langchain_description`:
the global `_func_description_chain` (`none` embeds Python `None`),
plus the observation counter of the spec, counting how many times a
chain was constructed and stored (session initializations). -/
structure DescState where
  func_description_chain : Option Chain
  initCount : Nat
deriving DecidableEq, Repr

/-- Module state at interpreter start: `_func_description_chain = None`,
no initialization performed yet. -/
def initialDescState : DescState :=
  { func_description_chain := none, initCount := 0 }

/-- The ImportError message raised when langchain is unavailable. -/
def langchainImportErrorMsg : String :=
  "Please install LangChain to generate function descriptions. Otherwise, set `generate_description=False` when registering your function."

/-- Embedding of `_get_langchain_description(func_str)`: if the global
chain exists, run it; else import langchain (raising the ImportError
above on failure, before any state change); else build the chain, store
it in the global (one more initialization), and run it. The returned
state is the global state after the call, error or not. -/
def get_langchain_description (env : LCEnv) (st : DescState) (funcStr : String) :
    DescState × Except String String :=
  match st.func_description_chain with
  | some chain => (st, .ok (env.runChain chain.id funcStr))
  | none =>
    if env.langchainAvailable then
      let chain : Chain := { id := st.initCount }
      ({ func_description_chain := some chain, initCount := st.initCount + 1 },
       .ok (env.runChain chain.id funcStr))
    else
      (st, .error langchainImportErrorMsg)

/-- The signature of `hello` in example.py:
`async def hello(name: str, age: int = 5) -> str`. -/
def helloSig : List Param :=
  [ { name := "name", annotation := some Ty.tStr, default := none },
    { name := "age", annotation := some Ty.tInt, default := some (Val.vInt 5) } ]

/-- The body of `hello`: `return f"Hello, {name}! Age {age}."`, reading
its keyword arguments; the wildcard fallbacks are unreachable for
payloads validated against `helloSig`. -/
def helloImpl (kwargs : List (String × Val)) : Val :=
  let name := match payloadGet kwargs "name" with
    | some (.vStr s) => s
    | _ => ""
  let age := match payloadGet kwargs "age" with
    | some (.vInt n) => n
    | _ => 0
  .vStr ("Hello, " ++ name ++ "! Age " ++ toString age ++ ".")

/-- Specification-side characterization of the keyword argument bound
for one parameter by the POST route: the payload value when the key is
present, else the declared default (the dummy fallback is unreachable
when every required field is present in the payload). -/
def fieldValue (payload : List (String × Val)) (p : Param) : Val :=
  match payloadGet payload p.name with
  | some v => v
  | none => p.default.getD (Val.vStr "")

/-- Specification-side characterization of the full keyword-argument
dict `payload.dict()` the POST route passes to the callable. -/
def kwargsOf (sig : List Param) (payload : List (String × Val)) :
    List (String × Val) :=
  sig.map (fun p => (p.name, fieldValue payload p))

/-! Helper lemmas about the dictionary model and payload validation. -/

theorem dictGet_nil (k : String) : dictGet [] k = none := rfl

theorem dictGet_cons_pos (kv : String × JVal) (t : List (String × JVal))
    (k : String) (h : kv.1 = k) : dictGet (kv :: t) k = some kv.2 := by
  have hp : (fun x : String × JVal => decide (x.1 = k)) kv = true := by
    simpa using h
  simp only [dictGet, @List.find?_cons_of_pos _ (fun x : String × JVal => decide (x.1 = k)) kv t hp,
    Option.map_some']

theorem dictGet_cons_neg (kv : String × JVal) (t : List (String × JVal))
    (k : String) (h : ¬ kv.1 = k) : dictGet (kv :: t) k = dictGet t k := by
  have hp : ¬ (fun x : String × JVal => decide (x.1 = k)) kv = true := by
    simpa using h
  simp only [dictGet, @List.find?_cons_of_neg _ (fun x : String × JVal => decide (x.1 = k)) kv t hp]

theorem dictGet_dictSet (d : List (String × JVal)) (k k' : String) (v : JVal) :
    dictGet (dictSet d k v) k' = if k' = k then some v else dictGet d k' := by
  induction d with
  | nil =>
    by_cases h : k' = k
    · rw [if_pos h]
      exact dictGet_cons_pos (k, v) [] k' h.symm
    · rw [if_neg h, dictGet_nil]
      exact dictGet_cons_neg (k, v) [] k' (fun hc => h hc.symm)
  | cons kv t ih =>
    by_cases hk : kv.1 = k
    · simp only [dictSet, if_pos hk]
      by_cases h : k' = k
      · rw [if_pos h, dictGet_cons_pos (k, v) t k' h.symm]
      · rw [if_neg h, dictGet_cons_neg (k, v) t k' (fun hc => h hc.symm),
          dictGet_cons_neg kv t k' (by rw [hk]; exact fun hc => h hc.symm)]
    · simp only [dictSet, if_neg hk]
      by_cases hkv : kv.1 = k'
      · have hne : ¬ k' = k := fun hc => hk (hkv.trans hc)
        rw [if_neg hne, dictGet_cons_pos kv (dictSet t k v) k' hkv,
          dictGet_cons_pos kv t k' hkv]
      · rw [dictGet_cons_neg kv (dictSet t k v) k' hkv,
          dictGet_cons_neg kv t k' hkv, ih]

theorem dictGet_dictUpdate_nodup (o : List (String × JVal)) :
    ∀ d : List (String × JVal), (o.map Prod.fst).Nodup →
    ∀ k : String, dictGet (dictUpdate d o) k = (dictGet o k).or (dictGet d k) := by
  induction o with
  | nil =>
    intro d _ k
    rfl
  | cons kv t ih =>
    intro d hnd k
    have hnd' : (t.map Prod.fst).Nodup := (List.nodup_cons.mp hnd).2
    have hhead : kv.1 ∉ t.map Prod.fst := (List.nodup_cons.mp hnd).1
    have hstep : dictUpdate d (kv :: t) = dictUpdate (dictSet d kv.1 kv.2) t := rfl
    rw [hstep, ih _ hnd' k, dictGet_dictSet]
    by_cases hk : k = kv.1
    · have hnone : dictGet t k = none := by
        have hfind : t.find? (fun x : String × JVal => decide (x.1 = k)) = none := by
          rw [List.find?_eq_none]
          intro x hx
          simp only [decide_eq_true_eq]
          intro hx1
          exact hhead ((hx1.trans hk) ▸ List.mem_map_of_mem Prod.fst hx)
        simp only [dictGet, hfind, Option.map_none']
      rw [hnone, if_pos hk, dictGet_cons_pos kv t k hk.symm]
      rfl
    · rw [if_neg hk, dictGet_cons_neg kv t k (fun hc => hk hc.symm)]

theorem generate_characterization (kwargs : List (String × JVal)) (s1 s2 s3 s4 : String)
    (h1 : dictGet (dictUpdate defaultPluginSpec kwargs) "name_for_human" = some (JVal.s s1))
    (h2 : dictGet (dictUpdate defaultPluginSpec kwargs) "name_for_model" = some (JVal.s s2))
    (h3 : dictGet (dictUpdate defaultPluginSpec kwargs) "description_for_human" = some (JVal.s s3))
    (h4 : dictGet (dictUpdate defaultPluginSpec kwargs) "description_for_model" = some (JVal.s s4)) :
    generate kwargs =
      { openapiWritten := true,
        manifest :=
          if s1.length ≤ 50 then
            if s2.length ≤ 50 then
              if s3.length ≤ 120 then
                if s4.length ≤ 8000 then some (dictUpdate defaultPluginSpec kwargs)
                else none
              else none
            else none
          else none,
        error :=
          if s1.length ≤ 50 then
            if s2.length ≤ 50 then
              if s3.length ≤ 120 then
                if s4.length ≤ 8000 then none
                else some (limitMsg "description_for_model" 8000 s4.length)
              else some (limitMsg "description_for_human" 120 s3.length)
            else some (limitMsg "name_for_model" 50 s2.length)
          else some (limitMsg "name_for_human" 50 s1.length) } := by
  have hc1 : plugin_check_limit (dictUpdate defaultPluginSpec kwargs) "name_for_human" 50
      = if s1.length ≤ 50 then Except.ok ()
        else Except.error (limitMsg "name_for_human" 50 s1.length) := by
    unfold plugin_check_limit
    rw [h1]
    rfl
  have hc2 : plugin_check_limit (dictUpdate defaultPluginSpec kwargs) "name_for_model" 50
      = if s2.length ≤ 50 then Except.ok ()
        else Except.error (limitMsg "name_for_model" 50 s2.length) := by
    unfold plugin_check_limit
    rw [h2]
    rfl
  have hc3 : plugin_check_limit (dictUpdate defaultPluginSpec kwargs) "description_for_human" 120
      = if s3.length ≤ 120 then Except.ok ()
        else Except.error (limitMsg "description_for_human" 120 s3.length) := by
    unfold plugin_check_limit
    rw [h3]
    rfl
  have hc4 : plugin_check_limit (dictUpdate defaultPluginSpec kwargs) "description_for_model" 8000
      = if s4.length ≤ 8000 then Except.ok ()
        else Except.error (limitMsg "description_for_model" 8000 s4.length) := by
    unfold plugin_check_limit
    rw [h4]
    rfl
  simp only [generate, checkLimits]
  rw [hc1, hc2, hc3, hc4]
  split_ifs <;> rfl

theorem postFields_cons (p : Param) (t : List Param) :
    postFields (p :: t) =
      { name := p.name, annotation := p.annotation, default := p.default } :: postFields t := rfl

theorem kwargsOf_cons (p : Param) (t : List Param) (payload : List (String × Val)) :
    kwargsOf (p :: t) payload = (p.name, fieldValue payload p) :: kwargsOf t payload := rfl

theorem validatePayload_accepts (sig : List Param) (payload : List (String × Val))
    (hreq : ∀ p ∈ sig, p.default = none → (payloadGet payload p.name).isSome = true)
    (hty : ∀ p ∈ sig, ∀ v : Val, payloadGet payload p.name = some v →
        ∃ t : Ty, p.annotation = some t ∧ checkTy t v = true) :
    validatePayload (postFields sig) payload = some (kwargsOf sig payload) := by
  induction sig with
  | nil => rfl
  | cons p t ih =>
    have hhead :
        bindField payload { name := p.name, annotation := p.annotation, default := p.default }
          = some (p.name, fieldValue payload p) := by
      unfold bindField fieldValue
      cases hv : payloadGet payload p.name with
      | some v =>
        obtain ⟨t0, ha, hc⟩ := hty p (List.mem_cons_self p t) v hv
        simp [ha, hc]
      | none =>
        cases hd : p.default with
        | none =>
          have := hreq p (List.mem_cons_self p t) hd
          rw [hv] at this
          simp at this
        | some d => simp
    have htail := ih (fun q hq => hreq q (List.mem_cons_of_mem p hq))
      (fun q hq => hty q (List.mem_cons_of_mem p hq))
    rw [postFields_cons, kwargsOf_cons]
    simp only [validatePayload]
    rw [hhead, htail]

theorem validatePayload_rejects (sig : List Param) (payload : List (String × Val))
    (p : Param) (hmem : p ∈ sig) (hd : p.default = none)
    (hv : payloadGet payload p.name = none) :
    validatePayload (postFields sig) payload = none := by
  induction sig with
  | nil => cases hmem
  | cons q t ih =>
    rw [postFields_cons]
    rcases List.mem_cons.mp hmem with rfl | hmem'
    · have hbf :
          bindField payload { name := p.name, annotation := p.annotation, default := p.default }
            = none := by
        unfold bindField
        rw [hv, hd]
        rfl
      simp only [validatePayload]
      rw [hbf]
    · have htail := ih hmem'
      simp only [validatePayload]
      rw [htail]
      cases bindField payload { name := q.name, annotation := q.annotation, default := q.default } <;> rfl

/-! Claim theorems. -/

/-- C4: when `generate_description` is unspecified, an explicit
`description` argument is used verbatim; otherwise the callable's
docstring is used when present; only when neither exists is a
description synthesized via `_generate_description`. The resolved
description is attached verbatim to every route `register` adds. -/
theorem description_resolution_order (doc : Option String) (gen d s : String) :
    resolveDescription (some d) none doc gen = (some d, false)
    ∧ resolveDescription none none (some s) gen = (some s, false)
    ∧ resolveDescription none none none gen = (some gen, true)
    ∧ (∀ funcName : String, ∀ methods : Option (List String),
        ∀ descr : Option String, ∀ genFlag : Option Bool, ∀ doc2 : Option String,
        ∀ r ∈ register funcName methods descr genFlag doc2 gen,
          r.description = (resolveDescription descr genFlag doc2 gen).1) := by
  refine ⟨rfl, rfl, rfl, ?_⟩
  intro funcName methods descr genFlag doc2 r hr
  unfold register routesFor at hr
  rcases List.mem_filterMap.mp hr with ⟨m, _, hval⟩
  split_ifs at hval
  · obtain rfl := Option.some.inj hval
    rfl
  · obtain rfl := Option.some.inj hval
    rfl

/-- C5 (on the failing input): for a parameter lacking a type
annotation, the POST schema construction forwards the
`inspect.Parameter.empty` sentinel unchanged as the field annotation,
and the GET branch's `getattr(..., str)` default is dead (an
`inspect.Parameter` always exposes the attribute), so no field falls
back to the open string type. -/
theorem unannotated_param_keeps_empty_sentinel :
    postFields [{ name := "x", annotation := none, default := none }]
      = [{ name := "x", annotation := none, default := none }]
    ∧ getAnnotationOrStr { name := "x", annotation := none, default := none } = none
    ∧ ¬ getAnnotationOrStr { name := "x", annotation := none, default := none }
        = some Ty.tStr := by
  exact ⟨rfl, rfl, by decide⟩

/-- C9: a POST to /hello with body assigning "John Doe" to name and 31
to age returns the result envelope "Hello, John Doe! Age 31.", and the
same request without the optional age field returns
"Hello, John Doe! Age 5.". -/
theorem hello_post_roundtrip :
    postEndpoint helloSig helloImpl
        [("name", Val.vStr "John Doe"), ("age", Val.vInt 31)]
      = Response.ok (Val.vStr "Hello, John Doe! Age 31.")
    ∧ postEndpoint helloSig helloImpl [("name", Val.vStr "John Doe")]
      = Response.ok (Val.vStr "Hello, John Doe! Age 5.") := by
  exact ⟨by decide, by decide⟩

/-- C10: a methods entry other than "GET" and "POST" is silently
skipped by `register`: it contributes no route, raises no error, and
the remaining methods are registered as if it were absent. -/
theorem register_skips_unknown_method (funcName m : String)
    (hg : m ≠ "GET") (hp : m ≠ "POST") (ms1 ms2 : List String)
    (descr : Option String) (genFlag : Option Bool) (doc : Option String)
    (gen : String) :
    register funcName (some (ms1 ++ m :: ms2)) descr genFlag doc gen
      = register funcName (some (ms1 ++ ms2)) descr genFlag doc gen
    ∧ routesFor funcName [m] (resolveDescription descr genFlag doc gen).1 = [] := by
  constructor
  · simp [register, routesFor, List.filterMap_append, List.filterMap_cons, hg, hp]
  · simp [routesFor, hg, hp]

/-- Witness for C10 at the unsupported method "PUT". -/
theorem register_skips_unknown_method_witness :
    register "hello" (some ["GET", "PUT", "POST"]) none none none ""
      = register "hello" (some ["GET", "POST"]) none none none ""
    ∧ routesFor "hello" ["PUT"] (resolveDescription none none none "").1 = [] :=
  register_skips_unknown_method "hello" "PUT" (by decide) (by decide)
    ["GET"] ["POST"] none none none ""

/-- C7: starting from the initial module state, the first description
derivation that reaches the collaborator constructs and caches the
chain (initialization count 1), and a second sequential derivation
reuses the same cached chain without further initialization. -/
theorem description_chain_initialized_once (env : LCEnv)
    (hav : env.langchainAvailable = true) (f1 f2 : String) :
    (get_langchain_description env initialDescState f1).1.initCount = 1
    ∧ (get_langchain_description env
        (get_langchain_description env initialDescState f1).1 f2).1
      = (get_langchain_description env initialDescState f1).1
    ∧ (get_langchain_description env initialDescState f1).1.func_description_chain
      = some { id := 0 }
    ∧ (get_langchain_description env
        (get_langchain_description env initialDescState f1).1 f2).2
      = Except.ok (env.runChain 0 f2) := by
  have h1 : get_langchain_description env initialDescState f1
      = ({ func_description_chain := some { id := 0 }, initCount := 1 },
         Except.ok (env.runChain 0 f1)) := by
    simp [get_langchain_description, initialDescState, hav]
  rw [h1]
  exact ⟨rfl, rfl, rfl, rfl⟩

/-- Witness for C7 with a concrete available environment. -/
theorem description_chain_initialized_once_witness :
    (get_langchain_description { langchainAvailable := true, runChain := fun _ s => s }
        initialDescState "def f(): pass").1.initCount = 1
    ∧ (get_langchain_description { langchainAvailable := true, runChain := fun _ s => s }
        (get_langchain_description { langchainAvailable := true, runChain := fun _ s => s }
          initialDescState "def f(): pass").1 "def g(): pass").1
      = (get_langchain_description { langchainAvailable := true, runChain := fun _ s => s }
          initialDescState "def f(): pass").1
    ∧ (get_langchain_description { langchainAvailable := true, runChain := fun _ s => s }
        initialDescState "def f(): pass").1.func_description_chain = some { id := 0 }
    ∧ (get_langchain_description { langchainAvailable := true, runChain := fun _ s => s }
        (get_langchain_description { langchainAvailable := true, runChain := fun _ s => s }
          initialDescState "def f(): pass").1 "def g(): pass").2
      = Except.ok "def g(): pass" :=
  description_chain_initialized_once
    { langchainAvailable := true, runChain := fun _ s => s } rfl
    "def f(): pass" "def g(): pass"

/-- C8: with no cached session and langchain unavailable, the call
raises the actionable ImportError immediately: no description is
produced and the module-global chain stays unset. -/
theorem langchain_unavailable_import_error (env : LCEnv) (st : DescState)
    (funcStr : String) (hchain : st.func_description_chain = none)
    (hav : env.langchainAvailable = false) :
    get_langchain_description env st funcStr
      = (st, Except.error langchainImportErrorMsg)
    ∧ (get_langchain_description env st funcStr).1.func_description_chain = none := by
  have h : get_langchain_description env st funcStr
      = (st, Except.error langchainImportErrorMsg) := by
    unfold get_langchain_description
    rw [hchain, hav]
    rfl
  exact ⟨h, by rw [h]; exact hchain⟩

/-- Witness for C8 from the initial module state. -/
theorem langchain_unavailable_import_error_witness :
    get_langchain_description { langchainAvailable := false, runChain := fun _ s => s }
        initialDescState "def f(): pass"
      = (initialDescState, Except.error langchainImportErrorMsg)
    ∧ (get_langchain_description { langchainAvailable := false, runChain := fun _ s => s }
        initialDescState "def f(): pass").1.func_description_chain = none :=
  langchain_unavailable_import_error
    { langchainAvailable := false, runChain := fun _ s => s }
    initialDescState "def f(): pass" rfl rfl

/-- C1: for a callable registered with the POST method (every parameter
carrying a usable annotation), the input schema has exactly one field
per parameter, required exactly when the parameter has no default; the
route accepts any payload that contains all required fields plus any
subset of the optional fields (with values conforming to the
annotations), invokes the callable with the decoded fields as keyword
arguments, and wraps its result as a single-key result envelope; a
payload missing a required field is rejected. -/
theorem post_route_contract (sig : List Param) (func : List (String × Val) → Val)
    (hann : ∀ p ∈ sig, p.annotation.isSome = true) :
    ((postFields sig).map (fun f => (f.name, f.default.isNone)) =
        sig.map (fun p => (p.name, p.default.isNone)))
    ∧ (∀ payload : List (String × Val),
        (∀ p ∈ sig, p.default = none → (payloadGet payload p.name).isSome = true) →
        (∀ p ∈ sig, ∀ v : Val, payloadGet payload p.name = some v →
            ∃ t : Ty, p.annotation = some t ∧ checkTy t v = true) →
        postEndpoint sig func payload = Response.ok (func (kwargsOf sig payload)))
    ∧ (∀ payload : List (String × Val), ∀ p ∈ sig, p.default = none →
        payloadGet payload p.name = none →
        postEndpoint sig func payload = Response.clientError) := by
  refine ⟨?_, ?_, ?_⟩
  · simp [postFields, List.map_map, Function.comp]
  · intro payload hreq hty
    unfold postEndpoint
    rw [validatePayload_accepts sig payload hreq hty]
  · intro payload p hmem hd hv
    unfold postEndpoint
    rw [validatePayload_rejects sig payload p hmem hd hv]

/-- Witness for C1 at the hello signature with the optional field
omitted from the payload. -/
theorem post_route_contract_witness :
    postEndpoint helloSig helloImpl [("name", Val.vStr "Jane")]
      = Response.ok (helloImpl (kwargsOf helloSig [("name", Val.vStr "Jane")])) :=
  (post_route_contract helloSig helloImpl (by decide)).2.1
    [("name", Val.vStr "Jane")] (by decide)
    (by
      intro p hp v hv
      rcases List.mem_cons.mp hp with rfl | hp'
      · have hx : payloadGet [("name", Val.vStr "Jane")] "name"
            = some (Val.vStr "Jane") := rfl
        rw [hx] at hv
        refine ⟨Ty.tStr, rfl, ?_⟩
        rw [← Option.some.inj hv]
        rfl
      · rcases List.mem_cons.mp hp' with rfl | hp''
        · have hx : payloadGet [("name", Val.vStr "Jane")] "age" = none := rfl
          rw [hx] at hv
          exact Option.noConfusion hv
        · cases hp'')

/-- C2: manifest emission succeeds exactly when all four character-length
limits hold on the merged plugin spec, and a violated limit raises the
assertion message naming the (first) offending key. -/
theorem generate_length_limits (kwargs : List (String × JVal)) (s1 s2 s3 s4 : String)
    (h1 : dictGet (dictUpdate defaultPluginSpec kwargs) "name_for_human" = some (JVal.s s1))
    (h2 : dictGet (dictUpdate defaultPluginSpec kwargs) "name_for_model" = some (JVal.s s2))
    (h3 : dictGet (dictUpdate defaultPluginSpec kwargs) "description_for_human" = some (JVal.s s3))
    (h4 : dictGet (dictUpdate defaultPluginSpec kwargs) "description_for_model" = some (JVal.s s4)) :
    ((generate kwargs).error = none ↔
      (s1.length ≤ 50 ∧ s2.length ≤ 50 ∧ s3.length ≤ 120 ∧ s4.length ≤ 8000))
    ∧ ((generate kwargs).manifest.isSome = true ↔ (generate kwargs).error = none)
    ∧ (50 < s1.length →
        (generate kwargs).error = some (limitMsg "name_for_human" 50 s1.length))
    ∧ (s1.length ≤ 50 → 50 < s2.length →
        (generate kwargs).error = some (limitMsg "name_for_model" 50 s2.length))
    ∧ (s1.length ≤ 50 → s2.length ≤ 50 → 120 < s3.length →
        (generate kwargs).error = some (limitMsg "description_for_human" 120 s3.length))
    ∧ (s1.length ≤ 50 → s2.length ≤ 50 → s3.length ≤ 120 → 8000 < s4.length →
        (generate kwargs).error = some (limitMsg "description_for_model" 8000 s4.length)) := by
  rw [generate_characterization kwargs s1 s2 s3 s4 h1 h2 h3 h4]
  refine ⟨?_, ?_, ?_, ?_, ?_, ?_⟩ <;>
    by_cases c1 : s1.length ≤ 50 <;> by_cases c2 : s2.length ≤ 50 <;>
    by_cases c3 : s3.length ≤ 120 <;> by_cases c4 : s4.length ≤ 8000 <;>
    simp [c1, c2, c3, c4] <;> omega

set_option maxRecDepth 100000 in
/-- Witness for C2 with the default spec (no overrides), whose fields
all satisfy their limits. -/
theorem generate_length_limits_witness : (generate []).error = none :=
  ((generate_length_limits [] "Custom Plugin" "Custom Plugin"
      "Unspecified custom plugin. Add behavior here."
      "Unspecified custom plugin. Add behavior here." rfl rfl rfl rfl).1).mpr
    (by decide)

set_option maxRecDepth 100000 in
/-- C3 counterexample: with a `description_for_human` override of
length 121 the call fails, yet the OpenAPI document has already been
written before the checks, so "no output file is written" is false. -/
theorem generate_partial_write_counterexample :
    ((generate [("description_for_human",
        JVal.s (String.mk (List.replicate 121 'a')))]).error).isSome = true
    ∧ (generate [("description_for_human",
        JVal.s (String.mk (List.replicate 121 'a')))]).openapiWritten = true := by
  exact ⟨rfl, rfl⟩

/-- C3 amended: on a length-limit violation the emission aborts before
writing the manifest JSON (ai-plugin.json is not written), but the
OpenAPI document has already been written when the checks run. -/
theorem generate_abort_after_openapi (kwargs : List (String × JVal))
    (h : (generate kwargs).error.isSome = true) :
    (generate kwargs).manifest = none ∧ (generate kwargs).openapiWritten = true := by
  cases hcl : checkLimits (dictUpdate defaultPluginSpec kwargs) with
  | ok u =>
    unfold generate at h
    rw [hcl] at h
    simp at h
  | error e =>
    unfold generate
    rw [hcl]
    exact ⟨rfl, rfl⟩

set_option maxRecDepth 100000 in
/-- Witness for C3's amended claim at a failing input. -/
theorem generate_abort_after_openapi_witness :
    (generate [("description_for_human",
        JVal.s (String.mk (List.replicate 121 'b')))]).manifest = none
    ∧ (generate [("description_for_human",
        JVal.s (String.mk (List.replicate 121 'b')))]).openapiWritten = true :=
  generate_abort_after_openapi
    [("description_for_human", JVal.s (String.mk (List.replicate 121 'b')))] rfl

set_option maxRecDepth 100000 in
/-- C6: the written manifest is the shallow key-for-key merge of the
default manifest with the caller overrides, overrides winning on every
key they supply; with no overrides it is exactly the documented default
key set with the documented default values. -/
theorem generate_manifest_merge (kwargs : List (String × JVal))
    (hnd : (kwargs.map Prod.fst).Nodup) :
    (∀ m : List (String × JVal), (generate kwargs).manifest = some m →
        ∀ k : String, dictGet m k = (dictGet kwargs k).or (dictGet defaultPluginSpec k))
    ∧ (generate []).manifest = some
        [ ("name_for_human", JVal.s "Custom Plugin"),
          ("name_for_model", JVal.s "Custom Plugin"),
          ("description_for_human", JVal.s "Unspecified custom plugin. Add behavior here."),
          ("description_for_model", JVal.s "Unspecified custom plugin. Add behavior here."),
          ("schema_version", JVal.s "v1"),
          ("auth", JVal.obj [("type", JVal.s "none")]),
          ("api", JVal.obj [("type", JVal.s "openapi"),
                            ("url", JVal.s "http://localhost:8000/openapi.yaml"),
                            ("is_user_authenticated", JVal.b false)]),
          ("logo_url", JVal.s "http://example.com/logo.png"),
          ("contact_email", JVal.s "support@example.com"),
          ("legal_info_url", JVal.s "http://www.example.com/legal") ] := by
  constructor
  · intro m hm k
    have hme : m = dictUpdate defaultPluginSpec kwargs := by
      unfold generate at hm
      cases hcl : checkLimits (dictUpdate defaultPluginSpec kwargs) with
      | ok u =>
        rw [hcl] at hm
        have hm' : some (dictUpdate defaultPluginSpec kwargs) = some m := hm
        exact (Option.some.inj hm').symm
      | error e =>
        rw [hcl] at hm
        have hm' : (none : Option (List (String × JVal))) = some m := hm
        exact Option.noConfusion hm'
    rw [hme, dictGet_dictUpdate_nodup kwargs defaultPluginSpec hnd k]
  · rfl

/-- Witness for C6 with a single override of name_for_human. -/
theorem generate_manifest_merge_witness :
    (∀ m : List (String × JVal),
        (generate [("name_for_human", JVal.s "Acme")]).manifest = some m →
        ∀ k : String, dictGet m k
          = (dictGet [("name_for_human", JVal.s "Acme")] k).or (dictGet defaultPluginSpec k))
    ∧ (generate []).manifest = some
        [ ("name_for_human", JVal.s "Custom Plugin"),
          ("name_for_model", JVal.s "Custom Plugin"),
          ("description_for_human", JVal.s "Unspecified custom plugin. Add behavior here."),
          ("description_for_model", JVal.s "Unspecified custom plugin. Add behavior here."),
          ("schema_version", JVal.s "v1"),
          ("auth", JVal.obj [("type", JVal.s "none")]),
          ("api", JVal.obj [("type", JVal.s "openapi"),
                            ("url", JVal.s "http://localhost:8000/openapi.yaml"),
                            ("is_user_authenticated", JVal.b false)]),
          ("logo_url", JVal.s "http://example.com/logo.png"),
          ("contact_email", JVal.s "support@example.com"),
          ("legal_info_url", JVal.s "http://www.example.com/legal") ] :=
  generate_manifest_merge [("name_for_human", JVal.s "Acme")] (by simp)


end AutoPlugin
